import Mathlib

/-!
# Verification of the JT808-style GPS ingestion engine

A shallow embedding of the per-connection protocol engine of this repository
(files `gps-tcp2.js`, `gps-tcp.js` and the unnamed Micodus variant), over
`List Nat` byte sequences.  JS `Buffer` values are modelled as `List Nat`
(every element a byte value `< 256` where relevant), machine arithmetic as
`Nat` arithmetic with explicit `%`/`/` where the source uses bit operations
on byte-sized values (`x & 0x03ff = x % 1024`, `(x >> 4) & 0x0f = x / 16 % 16`,
`x & 0x2000 ≠ 0 ↔ x / 8192 % 2 = 1`, `x & 0x01 = x % 2`; these identities are
exact on `Nat`), and JS exceptions as `Except`.

JS numbers that the source rounds with `toFixed` after dividing an integer by
a power of ten (`latRaw / 1e6`, `speed / 10`, …) are modelled as exact
rationals: for the 32-bit integer inputs involved the double-precision
quotient differs from the exact rational by far less than half an ulp of the
rounded position, so `+(x / 1e6).toFixed(6)` denotes exactly `x / 10^6`.
-/

namespace GpsTcp2

/-- Big-endian 16-bit write (`Buffer.writeUInt16BE`; Node asserts `v < 2^16`).
For `v < 65536` the two bytes are `v >> 8` and `v & 0xff`, i.e. `v / 256` and
`v % 256`. -/
def u16be (v : Nat) : List Nat := [v / 256, v % 256]

/-- Big-endian 16-bit read (`(b[i] << 8) | b[i+1]` on byte values). -/
def readU16 (l : List Nat) (i : Nat) : Nat :=
  l.getD i 0 * 256 + l.getD (i + 1) 0

/-- Big-endian 32-bit read (`Buffer.readUInt32BE`). -/
def readU32 (l : List Nat) (i : Nat) : Nat :=
  l.getD i 0 * 16777216 + l.getD (i + 1) 0 * 65536 +
    l.getD (i + 2) 0 * 256 + l.getD (i + 3) 0

/-- XOR checksum: `let cs = 0; for (const b of data) cs ^= b` (`gps-tcp2.js`). -/
def xorChecksum (l : List Nat) : Nat := l.foldl Nat.xor 0

/-- `escapeJT808` (`gps-tcp2.js` lines 200–208): `0x7e ↦ 0x7d 0x02`,
`0x7d ↦ 0x7d 0x01`, all other bytes copied. -/
def escapeJT808 : List Nat → List Nat
  | [] => []
  | b :: rest =>
    if b = 0x7e then 0x7d :: 0x02 :: escapeJT808 rest
    else if b = 0x7d then 0x7d :: 0x01 :: escapeJT808 rest
    else b :: escapeJT808 rest

/-- `unescapeJT808` (`gps-tcp2.js` lines 187–199): a `0x7d` with a following
byte `0x01`/`0x02` is replaced by `0x7d`/`0x7e`; a `0x7d` with any other
follower, or a trailing lone `0x7d`, is copied through unchanged (the source
reports no error). -/
def unescapeJT808 : List Nat → List Nat
  | [] => []
  | [b] => [b]
  | b :: n :: rest =>
    if b = 0x7d ∧ n = 0x01 then 0x7d :: unescapeJT808 rest
    else if b = 0x7d ∧ n = 0x02 then 0x7e :: unescapeJT808 rest
    else b :: unescapeJT808 (n :: rest)

/-- One byte's contribution to `bcdToString`: high nibble digit then low
nibble digit, each emitted only when `≤ 9`. -/
def bcdNibbles (b : Nat) : List Nat :=
  (if b / 16 % 16 ≤ 9 then [b / 16 % 16] else []) ++
    (if b % 16 ≤ 9 then [b % 16] else [])

/-- `bcdToString` (`gps-tcp2.js` lines 209–217), with the decimal string
modelled as its list of digit values; `replace(/^0+/, "")` strips the leading
zero digits. -/
def bcdToString (bytes : List Nat) : List Nat :=
  (bytes.flatMap bcdNibbles).dropWhile (· == 0)

/-- Byte `i` of `strToBcd`: digits at positions `2i`, `2i+1` (missing
positions read as `"0"`), packed high nibble first.  The input string is
modelled as its list of digit values (the claims restrict to decimal digits;
`parseInt(c) & 0x0f` is the digit value, and `NaN & 0x0f = 0` for non-digits
is outside the modelled domain). -/
def bcdByte (s : List Nat) (i : Nat) : Nat :=
  s.getD (2 * i) 0 % 16 * 16 + s.getD (2 * i + 1) 0 % 16

/-- `strToBcd` (`gps-tcp2.js` lines 218–226): fixed six output bytes. -/
def strToBcd (s : List Nat) : List Nat :=
  [bcdByte s 0, bcdByte s 1, bcdByte s 2, bcdByte s 3, bcdByte s 4, bcdByte s 5]

/-- `terminalStr.padStart(12, "0").slice(-12)` on a digit-value list. -/
def padTo12 (t : List Nat) : List Nat :=
  (List.replicate (12 - t.length) 0 ++ t).drop (t.length - 12)

/-- `nextSeq` (`gps-tcp2.js` lines 146–147): state transformer on the
module-level `seqCounter`.  `seqCounter = (seqCounter + 1) & 0xffff` stores
the wrapped value; `return seqCounter || 1` returns `1` when the stored value
is `0` (but leaves the stored value at `0`). -/
def nextSeq (seqCounter : Nat) : Nat × Nat :=
  let s := (seqCounter + 1) % 65536
  (if s = 0 then 1 else s, s)

end GpsTcp2

namespace GpsTcp2

/-! ## Escape / unescape round trip -/

theorem unescape_cons_of_ne (b : Nat) (l : List Nat) (hb : b ≠ 0x7d) :
    unescapeJT808 (b :: l) = b :: unescapeJT808 l := by
  cases l with
  | nil => rfl
  | cons n rest =>
    rw [unescapeJT808]
    rw [if_neg (by simp [hb]), if_neg (by simp [hb])]

theorem unescape_escape (s : List Nat) :
    unescapeJT808 (escapeJT808 s) = s := by
  induction s with
  | nil => rfl
  | cons b rest ih =>
    by_cases h7e : b = 0x7e
    · subst h7e
      rw [escapeJT808, if_pos rfl, unescapeJT808, if_neg (by simp), if_pos (by simp), ih]
    · by_cases h7d : b = 0x7d
      · subst h7d
        rw [escapeJT808, if_neg (by simp), if_pos rfl, unescapeJT808, if_pos (by simp), ih]
      · rw [escapeJT808, if_neg h7e, if_neg h7d, unescape_cons_of_ne b _ h7d, ih]

/-- C4: For every byte sequence `s`, unescaping the escaped form gives back
`s` exactly: `unescapeJT808 (escapeJT808 s) = s`, where the escape maps
`0x7E` to `0x7D 0x02` and `0x7D` to `0x7D 0x01` and unescape is its
inverse.  (Proved for arbitrary `Nat` sequences, which subsumes byte
sequences.) -/
theorem escape_unescape_roundtrip (s : List Nat) :
    unescapeJT808 (escapeJT808 s) = s :=
  unescape_escape s

/-! ## C5: the unescape step does not reject malformed escape sequences -/

/-- C5 counterexample: a frame interior containing `0x7D` followed by `0x03`
(neither `0x01` nor `0x02`), and an interior that is a lone trailing `0x7D`,
are both passed through literally by `unescapeJT808`; the function is total
and reports no framing error, contradicting the claim that such interiors are
rejected. -/
theorem unescape_accepts_bad_escape :
    unescapeJT808 [0x7d, 0x03] = [0x7d, 0x03] ∧ unescapeJT808 [0x7d] = [0x7d] := by
  constructor <;> rfl

/-- C5 amended: a `0x7D` byte followed by any byte other than `0x01`/`0x02`
is emitted literally and scanning continues at the following byte; an
interior that ends in a lone trailing `0x7D` emits that byte as-is;
unescaping never fails. -/
theorem unescape_passthrough (b : Nat) (rest : List Nat)
    (h1 : b ≠ 0x01) (h2 : b ≠ 0x02) :
    unescapeJT808 (0x7d :: b :: rest) = 0x7d :: unescapeJT808 (b :: rest) ∧
      unescapeJT808 [0x7d] = [0x7d] := by
  refine ⟨?_, rfl⟩
  rw [unescapeJT808]
  rw [if_neg (by simp [h1]), if_neg (by simp [h2])]

/-- C5 amended-theorem witness at `b = 3`, `rest = []`. -/
theorem unescape_passthrough_witness :
    unescapeJT808 [0x7d, 3] = 0x7d :: unescapeJT808 [3] ∧
      unescapeJT808 [0x7d] = [0x7d] :=
  unescape_passthrough 3 [] (by decide) (by decide)

/-! ## C6: the outbound sequence counter -/

/-- C6 counterexample: starting from stored counter `65535` (reached after
the 65534th send on the shared module-level counter), the next two calls to
`nextSeq` both return `1`: at the wrap the stored counter becomes `0` while
`1` is returned, and the following call stores and returns `1` again.  The
emitted sequence is therefore not strictly increasing modulo `2^16` and the
value `1` repeats across the wrap. -/
theorem nextSeq_repeats_one :
    (nextSeq 65535).1 = 1 ∧ (nextSeq (nextSeq 65535).2).1 = 1 := by
  constructor <;> rfl

/-- C6 amended: `nextSeq` never returns zero, and whenever the incremented
counter is nonzero modulo `2^16` the returned value and the stored value both
equal `(s + 1) % 2^16` (so the sequence strictly increases by one away from
the wrap); at the wrap, however, the stored counter becomes `0` while `1` is
returned, so the value `1` is emitted twice in a row.  The counter is a
module-level variable shared by all connections, not per-connection state. -/
theorem nextSeq_spec (s : Nat) :
    (nextSeq s).1 ≠ 0 ∧
      ((s + 1) % 65536 ≠ 0 →
        (nextSeq s).1 = (s + 1) % 65536 ∧ (nextSeq s).2 = (s + 1) % 65536) := by
  unfold nextSeq
  by_cases h : (s + 1) % 65536 = 0
  · simp [h]
  · simp [h]

/-- C6 amended-theorem witness at `s = 5`. -/
theorem nextSeq_spec_witness :
    (nextSeq 5).1 = (5 + 1) % 65536 ∧ (nextSeq 5).2 = (5 + 1) % 65536 :=
  (nextSeq_spec 5).2 (by decide)

end GpsTcp2

namespace GpsTcp2

/-! ## C7: BCD terminal-id round trip -/

theorem bcdNibbles_pack (a b : Nat) (ha : a < 10) (hb : b < 10) :
    bcdNibbles (a % 16 * 16 + b % 16) = [a, b] := by
  have ha' : a % 16 = a := Nat.mod_eq_of_lt (by omega)
  have hb' : b % 16 = b := Nat.mod_eq_of_lt (by omega)
  rw [ha', hb']
  unfold bcdNibbles
  have h1 : (a * 16 + b) / 16 % 16 = a := by omega
  have h2 : (a * 16 + b) % 16 = b := by omega
  rw [h1, h2, if_pos (by omega), if_pos (by omega)]
  rfl

theorem flatMap_strToBcd (l : List Nat) (h12 : l.length = 12)
    (hd : ∀ d ∈ l, d < 10) :
    (strToBcd l).flatMap bcdNibbles = l := by
  rcases l with _ | ⟨a0, _ | ⟨a1, _ | ⟨a2, _ | ⟨a3, _ | ⟨a4, _ | ⟨a5, _ | ⟨a6, _ | ⟨a7, _ | ⟨a8, _ | ⟨a9, _ | ⟨a10, _ | ⟨a11, _ | ⟨a12, tl⟩⟩⟩⟩⟩⟩⟩⟩⟩⟩⟩⟩⟩ <;>
    simp only [List.length_cons, List.length_nil] at h12 <;> try omega
  have e : strToBcd [a0, a1, a2, a3, a4, a5, a6, a7, a8, a9, a10, a11] =
      [a0 % 16 * 16 + a1 % 16, a2 % 16 * 16 + a3 % 16, a4 % 16 * 16 + a5 % 16,
       a6 % 16 * 16 + a7 % 16, a8 % 16 * 16 + a9 % 16, a10 % 16 * 16 + a11 % 16] := rfl
  rw [e]
  simp only [List.flatMap_cons, List.flatMap_nil, List.append_nil]
  rw [bcdNibbles_pack a0 a1 (hd a0 (by simp)) (hd a1 (by simp)),
      bcdNibbles_pack a2 a3 (hd a2 (by simp)) (hd a3 (by simp)),
      bcdNibbles_pack a4 a5 (hd a4 (by simp)) (hd a5 (by simp)),
      bcdNibbles_pack a6 a7 (hd a6 (by simp)) (hd a7 (by simp)),
      bcdNibbles_pack a8 a9 (hd a8 (by simp)) (hd a9 (by simp)),
      bcdNibbles_pack a10 a11 (hd a10 (by simp)) (hd a11 (by simp))]
  rfl

theorem dropWhile_zero_append (k : Nat) (t : List Nat) :
    (List.replicate k 0 ++ t).dropWhile (· == 0) = t.dropWhile (· == 0) := by
  induction k with
  | zero => simp
  | succ n ih => simp [List.replicate_succ, List.dropWhile_cons, ih]

theorem bcd_round_trip (t : List Nat) (h : t.length ≤ 12) (hd : ∀ d ∈ t, d < 10) :
    bcdToString (strToBcd (padTo12 t)) = t.dropWhile (· == 0) := by
  have hp : padTo12 t = List.replicate (12 - t.length) 0 ++ t := by
    unfold padTo12
    rw [show t.length - 12 = 0 by omega, List.drop_zero]
  have hlen : (List.replicate (12 - t.length) 0 ++ t).length = 12 := by
    simp only [List.length_append, List.length_replicate]; omega
  have hdig : ∀ d ∈ List.replicate (12 - t.length) 0 ++ t, d < 10 := by
    intro d hdm
    rcases List.mem_append.mp hdm with h1 | h2
    · have := List.eq_of_mem_replicate h1; omega
    · exact hd d h2
  rw [hp]
  unfold bcdToString
  rw [flatMap_strToBcd _ hlen hdig, dropWhile_zero_append]

/-- The result shape the claim states, written from the spec's words: the
input with leading zeros stripped, or `"0"` (the single digit zero) when the
input is all zeros. -/
def specStripOr0 (t : List Nat) : List Nat :=
  let s := t.dropWhile (· == 0)
  if s.isEmpty then [0] else s

/-- C7 counterexample: for the all-zero terminal string `"0"` the code's
round trip `bcdToString (strToBcd ·)` (with the builder's left-padding to 12
digits) yields the empty string — `replace(/^0+/, "")` strips every leading
zero — not the claimed `"0"`. -/
theorem bcd_roundtrip_not_spec :
    bcdToString (strToBcd (padTo12 [0])) ≠ specStripOr0 [0] := by decide

/-- C7 amended: for every terminal id string `t` of up to 12 decimal digits,
converting to 6 BCD bytes (after the builder's left-pad to 12 digits) and
back yields `t` with all leading zeros stripped — which is the empty string,
not `"0"`, when `t` is all zeros. -/
theorem bcd_string_roundtrip (t : List Nat) (h : t.length ≤ 12)
    (hd : ∀ d ∈ t, d < 10) :
    bcdToString (strToBcd (padTo12 t)) = t.dropWhile (· == 0) :=
  bcd_round_trip t h hd

/-- C7 amended-theorem witness at `t = "012"`. -/
theorem bcd_string_roundtrip_witness :
    bcdToString (strToBcd (padTo12 [0, 1, 2])) = List.dropWhile (· == 0) [0, 1, 2] :=
  bcd_string_roundtrip [0, 1, 2] (by decide) (by decide)

end GpsTcp2

namespace GpsTcpAscii

/-! ## ASCII legacy path (`gps-tcp.js`) -/

/-- Numeric value of a digit string (the string modelled as its list of digit
values), as computed by `parseInt` / the integer part of `parseFloat`. -/
def digitsVal (l : List Nat) : Nat := l.foldl (fun a d => a * 10 + d) 0

/-- `+x.toFixed(6)`: round to six fractional digits.  JS `toFixed` rounds the
double to the nearest 6-digit decimal; on the rationals reached by the claims
the double-precision error cannot move the result across a rounding boundary,
so the exact rational rounding is the faithful model. -/
def roundTo6 (q : ℚ) : ℚ := (round (q * 1000000) : ℚ) / 1000000

/-- `dmToDec` (`gps-tcp.js` lines 8–19).  The coordinate string `"DDMM.mmmm"`
is modelled as the digit list `ip` before the decimal point and `fp` after
it; `neg` is `dir === "S" || dir === "W"`.  The code takes
`deg = parseInt(dm.slice(0, i-2))` — all pre-decimal digits but the last
two — and `min = parseFloat(dm.slice(i-2))` — the last two pre-decimal
digits plus the fraction — then `deg + min/60`, negated and rounded. -/
def dmToDec (ip fp : List Nat) (neg : Bool) : ℚ :=
  let deg : ℚ := digitsVal (ip.take (ip.length - 2))
  let minQ : ℚ := digitsVal (ip.drop (ip.length - 2)) + (digitsVal fp : ℚ) / 10 ^ fp.length
  let dec := deg + minQ / 60
  roundTo6 (if neg then -dec else dec)

/-- C9: the degrees-minutes conversion takes the digits before the last two
pre-decimal digits as whole degrees, the rest as minutes, computes
`degrees + minutes/60`, negates for `'S'`/`'W'`, and rounds to six fractional
digits; in particular `"3215.4545",N` converts to `32.257575` and
`"03451.2323",E` converts to `34.853872`. -/
theorem dmToDec_spec :
    dmToDec [3, 2, 1, 5] [4, 5, 4, 5] false = 32257575 / 1000000 ∧
    dmToDec [0, 3, 4, 5, 1] [2, 3, 2, 3] false = 34853872 / 1000000 ∧
    (∀ ip fp : List Nat, dmToDec ip fp false =
      roundTo6 ((digitsVal (ip.take (ip.length - 2)) : ℚ) +
        ((digitsVal (ip.drop (ip.length - 2)) : ℚ) +
          (digitsVal fp : ℚ) / 10 ^ fp.length) / 60)) ∧
    (∀ ip fp : List Nat, dmToDec ip fp true =
      roundTo6 (-((digitsVal (ip.take (ip.length - 2)) : ℚ) +
        ((digitsVal (ip.drop (ip.length - 2)) : ℚ) +
          (digitsVal fp : ℚ) / 10 ^ fp.length) / 60))) ∧
    dmToDec [3, 2, 1, 5] [4, 5, 4, 5] true = -(32257575 / 1000000) := by
  refine ⟨?_, ?_, fun ip fp => rfl, fun ip fp => rfl, ?_⟩ <;>
    norm_num [dmToDec, digitsVal, roundTo6, round_eq]

end GpsTcpAscii

namespace GpsTcp2

/-! ## The 0x0200 location decoder (`decode0200`, `bcdDateTime`) -/

/-- The decoded UTC timestamp, modelled as its field values.  The source
builds `new Date(Date.UTC(fullY, mm - 1, dd, hh, mi, ss)).toISOString()`; for
in-range fields (the ones the claims touch) this renders exactly these
values. -/
structure DateTime6 where
  year : Nat
  month : Nat
  day : Nat
  hour : Nat
  minute : Nat
  second : Nat
deriving DecidableEq

/-- One packed-BCD byte to its two-digit value:
`((b >> 4) & 0x0f) * 10 + (b & 0x0f)`. -/
def bcdBytePair (x : Nat) : Nat := x / 16 % 16 * 10 + x % 16

/-- `bcdDateTime` (`gps-tcp2.js` lines 227–238): six BCD bytes
YY MM DD hh mm ss; `null` when fewer than six bytes; years `< 80` map to
`2000 + YY`, otherwise `1900 + YY`. -/
def bcdDateTime (b : List Nat) : Option DateTime6 :=
  if b.length < 6 then none
  else
    let yy := bcdBytePair (b.getD 0 0)
    some
      { year := if yy < 80 then 2000 + yy else 1900 + yy,
        month := bcdBytePair (b.getD 1 0), day := bcdBytePair (b.getD 2 0),
        hour := bcdBytePair (b.getD 3 0), minute := bcdBytePair (b.getD 4 0),
        second := bcdBytePair (b.getD 5 0) }

/-- The decoded location record of `decode0200` (`gps-tcp2.js` line 127). -/
structure Loc where
  alarm : Nat
  status : Nat
  latitude : ℚ
  longitude : ℚ
  altitude_m : Nat
  speed_kmh : ℚ
  course_deg : Nat
  time_utc : Option DateTime6
deriving DecidableEq

/-- `decode0200` (`gps-tcp2.js` lines 106–128): `null` below 28 bytes, else
alarm(4) status(4) lat(4) lon(4) alt(2) speed(2) course(2) time(6 BCD), with
`+(latRaw / 1e6).toFixed(6)` and `+(speed / 10).toFixed(1)` modelled as the
exact rationals they denote. -/
def decode0200 (buf : List Nat) : Option Loc :=
  if buf.length < 28 then none
  else
    some
      { alarm := readU32 buf 0, status := readU32 buf 4,
        latitude := (readU32 buf 8 : ℚ) / 1000000,
        longitude := (readU32 buf 12 : ℚ) / 1000000,
        altitude_m := readU16 buf 16,
        speed_kmh := (readU16 buf 18 : ℚ) / 10,
        course_deg := readU16 buf 20,
        time_utc := bcdDateTime ((buf.drop 22).take 6) }

/-- The 28-byte literal prefix from the claim:
`00000000 00000003 01dcd650 07a8b078 0064 00c8 005a 240315123045`. -/
def c3Bytes : List Nat :=
  [0x00, 0x00, 0x00, 0x00, 0x00, 0x00, 0x00, 0x03,
   0x01, 0xdc, 0xd6, 0x50, 0x07, 0xa8, 0xb0, 0x78,
   0x00, 0x64, 0x00, 0xc8, 0x00, 0x5a, 0x24, 0x03, 0x15, 0x12, 0x30, 0x45]

theorem decode0200_c3Bytes_eq :
    decode0200 c3Bytes =
      some { alarm := 0, status := 3,
             latitude := (31250000 : ℚ) / 1000000,
             longitude := (128495736 : ℚ) / 1000000,
             altitude_m := 100, speed_kmh := (200 : ℚ) / 10, course_deg := 90,
             time_utc := some { year := 2024, month := 3, day := 15,
                                hour := 12, minute := 30, second := 45 } } := by
  unfold decode0200
  rw [if_neg (by decide),
      show readU32 c3Bytes 0 = 0 from by decide,
      show readU32 c3Bytes 4 = 3 from by decide,
      show readU32 c3Bytes 8 = 31250000 from by decide,
      show readU32 c3Bytes 12 = 128495736 from by decide,
      show readU16 c3Bytes 16 = 100 from by decide,
      show readU16 c3Bytes 18 = 200 from by decide,
      show readU16 c3Bytes 20 = 90 from by decide,
      show bcdDateTime ((c3Bytes.drop 22).take 6) =
        some { year := 2024, month := 3, day := 15,
               hour := 12, minute := 30, second := 45 } from by decide]
  simp only [Option.some.injEq, Loc.mk.injEq]
  norm_num

/-- C3 counterexample: the claimed literal decode is wrong.  The latitude raw
field `01dcd650` is 31 250 000, so the decoder yields latitude `31.250000`,
not the claimed `31.258960`; the longitude raw field `07a8b078` is
128 495 736, yielding `128.495736`, not the claimed `12.826744`. -/
theorem decode0200_example_differs :
    (decode0200 c3Bytes).map Loc.latitude = some ((31250000 : ℚ) / 1000000) ∧
    (decode0200 c3Bytes).map Loc.latitude ≠ some ((31258960 : ℚ) / 1000000) ∧
    (decode0200 c3Bytes).map Loc.longitude = some ((128495736 : ℚ) / 1000000) ∧
    (decode0200 c3Bytes).map Loc.longitude ≠ some ((12826744 : ℚ) / 1000000) := by
  rw [decode0200_c3Bytes_eq]
  refine ⟨rfl, ?_, rfl, ?_⟩ <;> simp only [Option.map_some', ne_eq, Option.some.injEq] <;>
    norm_num

/-- C3 amended: for every 0x0200 body of at least 28 bytes the decoder reads
the fixed prefix as alarm (4 bytes big-endian), status (4), latitude raw
(4, divided by 10^6), longitude raw (4, same), altitude in metres (2,
unsigned), speed (2, divided by 10, km/h), heading (2, integer degrees), and
a 6-byte BCD timestamp with years < 80 mapped to 2000+YY and years ≥ 80 to
1900+YY; the literal prefix of the claim decodes to latitude 31.250000,
longitude 128.495736, altitude 100 m, speed 20.0 km/h, heading 90, timestamp
2024-03-15T12:30:45Z (the claim's latitude 31.258960 and longitude 12.826744
do not match its own hex input: `01dcd650` is 31 250 000 and `07a8b078` is
128 495 736). -/
theorem decode0200_spec :
    (∀ b : List Nat, 28 ≤ b.length →
      decode0200 b =
        some { alarm := readU32 b 0, status := readU32 b 4,
               latitude := (readU32 b 8 : ℚ) / 1000000,
               longitude := (readU32 b 12 : ℚ) / 1000000,
               altitude_m := readU16 b 16, speed_kmh := (readU16 b 18 : ℚ) / 10,
               course_deg := readU16 b 20,
               time_utc := bcdDateTime ((b.drop 22).take 6) }) ∧
    (∀ b : List Nat, 6 ≤ b.length → ∃ d, bcdDateTime b = some d ∧
      d.year = (if bcdBytePair (b.getD 0 0) < 80 then 2000 + bcdBytePair (b.getD 0 0)
                else 1900 + bcdBytePair (b.getD 0 0)) ∧
      d.month = bcdBytePair (b.getD 1 0) ∧ d.day = bcdBytePair (b.getD 2 0) ∧
      d.hour = bcdBytePair (b.getD 3 0) ∧ d.minute = bcdBytePair (b.getD 4 0) ∧
      d.second = bcdBytePair (b.getD 5 0)) ∧
    decode0200 c3Bytes =
      some { alarm := 0, status := 3,
             latitude := (31250000 : ℚ) / 1000000,
             longitude := (128495736 : ℚ) / 1000000,
             altitude_m := 100, speed_kmh := (200 : ℚ) / 10, course_deg := 90,
             time_utc := some { year := 2024, month := 3, day := 15,
                                hour := 12, minute := 30, second := 45 } } := by
  refine ⟨fun b hb => ?_, fun b hb => ?_, decode0200_c3Bytes_eq⟩
  · unfold decode0200
    rw [if_neg (by omega)]
  · unfold bcdDateTime
    rw [if_neg (by omega)]
    exact ⟨_, rfl, rfl, rfl, rfl, rfl, rfl, rfl⟩

/-- C3 amended-theorem witness: the two hypothesised parts applied at the
literal prefix and at its timestamp bytes. -/
theorem decode0200_spec_witness :
    decode0200 c3Bytes =
      some { alarm := readU32 c3Bytes 0, status := readU32 c3Bytes 4,
             latitude := (readU32 c3Bytes 8 : ℚ) / 1000000,
             longitude := (readU32 c3Bytes 12 : ℚ) / 1000000,
             altitude_m := readU16 c3Bytes 16,
             speed_kmh := (readU16 c3Bytes 18 : ℚ) / 10,
             course_deg := readU16 c3Bytes 20,
             time_utc := bcdDateTime ((c3Bytes.drop 22).take 6) } ∧
    (∃ d, bcdDateTime [0x24, 0x03, 0x15, 0x12, 0x30, 0x45] = some d ∧
      d.year = (if bcdBytePair (([0x24, 0x03, 0x15, 0x12, 0x30, 0x45] : List Nat).getD 0 0) < 80
                then 2000 + bcdBytePair (([0x24, 0x03, 0x15, 0x12, 0x30, 0x45] : List Nat).getD 0 0)
                else 1900 + bcdBytePair (([0x24, 0x03, 0x15, 0x12, 0x30, 0x45] : List Nat).getD 0 0)) ∧
      d.month = bcdBytePair (([0x24, 0x03, 0x15, 0x12, 0x30, 0x45] : List Nat).getD 1 0) ∧
      d.day = bcdBytePair (([0x24, 0x03, 0x15, 0x12, 0x30, 0x45] : List Nat).getD 2 0) ∧
      d.hour = bcdBytePair (([0x24, 0x03, 0x15, 0x12, 0x30, 0x45] : List Nat).getD 3 0) ∧
      d.minute = bcdBytePair (([0x24, 0x03, 0x15, 0x12, 0x30, 0x45] : List Nat).getD 4 0) ∧
      d.second = bcdBytePair (([0x24, 0x03, 0x15, 0x12, 0x30, 0x45] : List Nat).getD 5 0)) :=
  ⟨decode0200_spec.1 c3Bytes (by decide),
   decode0200_spec.2.1 [0x24, 0x03, 0x15, 0x12, 0x30, 0x45] (by decide)⟩

end GpsTcp2


namespace GpsTcp2

/-! ## Frame parsing and building (`parseJT808Frame`, `buildFrame`) -/

/-- The two `throw new Error(...)` sites of `parseJT808Frame`. -/
inductive ParseErr where
  | badDelimiters
  | tooShort
deriving DecidableEq

/-- The object returned by `parseJT808Frame` (`gps-tcp2.js` lines 97–103);
the purely diagnostic `rawHex` and `asciiHint` fields are omitted. -/
structure Parsed where
  ok : Bool
  msgId : Nat
  props : Nat
  bodyLen : Nat
  subpack : Bool
  terminal : List Nat
  seq : Nat
  pkg : Option (Nat × Nat)
  bodyBytes : List Nat
  decoded : Option Loc
deriving DecidableEq

/-- `parseJT808Frame` (`gps-tcp2.js` lines 53–104).  `frame[0] !== 0x7e`
is modelled with `getD _ 0` (an out-of-range JS read gives `undefined`,
which also differs from `0x7e`); `frame.slice(1, length - 1)` is
`(drop 1).take (length - 2)`; `props & 0x03ff` is `props % 1024` and
`!!(props & 0x2000)` is `props / 8192 % 2 == 1`; the source's local `calc`
is named `calcCs` (`calc` is reserved here). -/
def parseJT808Frame (frame : List Nat) : Except ParseErr Parsed :=
  if frame.getD 0 0 ≠ 0x7e ∨ frame.getD (frame.length - 1) 0 ≠ 0x7e then
    .error .badDelimiters
  else
    let body := unescapeJT808 ((frame.drop 1).take (frame.length - 2))
    if body.length < 13 then .error .tooShort
    else
      let checksum := body.getD (body.length - 1) 0
      let data := body.take (body.length - 1)
      let calcCs := data.foldl Nat.xor 0
      let ok := calcCs == checksum
      let msgId := readU16 data 0
      let props := readU16 data 2
      let bodyLen := props % 1024
      let subpack := props / 8192 % 2 == 1
      let terminal := bcdToString ((data.drop 4).take 6)
      let seq := readU16 data 10
      let offset := if subpack then 16 else 12
      let pkg := if subpack then some (readU16 data 12, readU16 data 14) else none
      let bodyBytes := (data.drop offset).take bodyLen
      let decoded := if msgId == 0x0200 then decode0200 bodyBytes else none
      .ok { ok := ok, msgId := msgId, props := props, bodyLen := bodyLen,
            subpack := subpack, terminal := terminal, seq := seq, pkg := pkg,
            bodyBytes := bodyBytes, decoded := decoded }

/-- `buildFrame` (`gps-tcp2.js` lines 166–183): 12-byte header (msg id,
props = body length in the low 10 bits, 6-byte BCD terminal, sequence), body,
XOR checksum, escape, and `0x7e` delimiters. -/
def buildFrame (msgId : Nat) (terminalStr : List Nat) (seq : Nat) (body : List Nat) : List Nat :=
  let phoneBcd := strToBcd (padTo12 terminalStr)
  let props := body.length % 1024
  let head := u16be msgId ++ u16be props ++ phoneBcd ++ u16be seq
  let data := head ++ body
  let cs := data.foldl Nat.xor 0
  0x7e :: (escapeJT808 (data ++ [cs]) ++ [0x7e])

theorem getD_append_singleton (l : List Nat) (a : Nat) :
    (l ++ [a]).getD l.length 0 = a := by
  induction l with
  | nil => rfl
  | cons x xs ih => simpa only [List.cons_append, List.length_cons, List.getD_cons_succ] using ih

/-- Parsing a sealed frame `0x7e ‖ escape(D ‖ xor(D)) ‖ 0x7e` succeeds and
recovers every header field from `D`. -/
theorem parse_wrap (D : List Nat) (hD : 12 ≤ D.length) :
    parseJT808Frame (0x7e :: (escapeJT808 (D ++ [D.foldl Nat.xor 0]) ++ [0x7e])) =
      .ok { ok := true, msgId := readU16 D 0, props := readU16 D 2,
            bodyLen := readU16 D 2 % 1024,
            subpack := readU16 D 2 / 8192 % 2 == 1,
            terminal := bcdToString ((D.drop 4).take 6), seq := readU16 D 10,
            pkg := if readU16 D 2 / 8192 % 2 == 1 then
                     some (readU16 D 12, readU16 D 14) else none,
            bodyBytes := (D.drop (if readU16 D 2 / 8192 % 2 == 1 then 16 else 12)).take
                           (readU16 D 2 % 1024),
            decoded := if readU16 D 0 == 0x0200 then
                         decode0200 ((D.drop (if readU16 D 2 / 8192 % 2 == 1 then 16 else 12)).take
                           (readU16 D 2 % 1024))
                       else none } := by
  have hE : ∀ X : List Nat,
      ((0x7e :: (X ++ [0x7e])).drop 1).take ((0x7e :: (X ++ [0x7e])).length - 2) = X := by
    intro X
    have h1 : (0x7e :: (X ++ [0x7e])).length - 2 = X.length := by
      simp only [List.length_cons, List.length_append, List.length_nil]
      omega
    rw [h1]
    simp only [List.drop_succ_cons, List.drop_zero]
    exact List.take_left X [0x7e]
  have hne : ¬((0x7e :: (escapeJT808 (D ++ [D.foldl Nat.xor 0]) ++ [0x7e])).getD 0 0 ≠ 0x7e ∨
      (0x7e :: (escapeJT808 (D ++ [D.foldl Nat.xor 0]) ++ [0x7e])).getD
        ((0x7e :: (escapeJT808 (D ++ [D.foldl Nat.xor 0]) ++ [0x7e])).length - 1) 0 ≠ 0x7e) := by
    push_neg
    refine ⟨rfl, ?_⟩
    have h2 : (0x7e :: (escapeJT808 (D ++ [D.foldl Nat.xor 0]) ++ [0x7e])).length - 1 =
        (escapeJT808 (D ++ [D.foldl Nat.xor 0])).length + 1 := by
      simp only [List.length_cons, List.length_append, List.length_nil]
      omega
    rw [h2]
    show (escapeJT808 (D ++ [D.foldl Nat.xor 0]) ++ [0x7e]).getD
      (escapeJT808 (D ++ [D.foldl Nat.xor 0])).length 0 = 0x7e
    exact getD_append_singleton _ 0x7e
  have hlen1 : (D ++ [D.foldl Nat.xor 0]).length = D.length + 1 := by simp
  simp only [parseJT808Frame]
  rw [if_neg hne, hE, unescape_escape, if_neg (by rw [hlen1]; omega)]
  have hlen2 : (D ++ [D.foldl Nat.xor 0]).length - 1 = D.length := by
    rw [hlen1]; omega
  have hck : (D ++ [D.foldl Nat.xor 0]).getD ((D ++ [D.foldl Nat.xor 0]).length - 1) 0 =
      D.foldl Nat.xor 0 := by
    rw [hlen2]; exact getD_append_singleton D _
  have hdata : (D ++ [D.foldl Nat.xor 0]).take ((D ++ [D.foldl Nat.xor 0]).length - 1) = D := by
    rw [hlen2]; exact List.take_left D _
  rw [hck, hdata, beq_self_eq_true]

theorem parse_buildFrame (msgId seq : Nat) (t body : List Nat)
    (hm : msgId < 65536) (hs : seq < 65536) (hb : body.length ≤ 1023) :
    parseJT808Frame (buildFrame msgId t seq body) =
      .ok { ok := true, msgId := msgId, props := body.length, bodyLen := body.length,
            subpack := false,
            terminal := bcdToString (strToBcd (padTo12 t)), seq := seq, pkg := none,
            bodyBytes := body,
            decoded := if msgId == 0x0200 then decode0200 body else none } := by
  have hbuild : buildFrame msgId t seq body =
      0x7e :: (escapeJT808
        (((u16be msgId ++ u16be (body.length % 1024) ++ strToBcd (padTo12 t) ++ u16be seq) ++ body) ++
          [((u16be msgId ++ u16be (body.length % 1024) ++ strToBcd (padTo12 t) ++ u16be seq) ++
            body).foldl Nat.xor 0]) ++ [0x7e]) := rfl
  have hlen : ((u16be msgId ++ u16be (body.length % 1024) ++ strToBcd (padTo12 t) ++ u16be seq) ++
      body).length = 12 + body.length := by
    simp [u16be, strToBcd]
    omega
  rw [hbuild, parse_wrap _ (by rw [hlen]; omega)]
  have hm0 : readU16 ((u16be msgId ++ u16be (body.length % 1024) ++ strToBcd (padTo12 t) ++
      u16be seq) ++ body) 0 = msgId := by
    show msgId / 256 * 256 + msgId % 256 = msgId
    omega
  have hp2 : readU16 ((u16be msgId ++ u16be (body.length % 1024) ++ strToBcd (padTo12 t) ++
      u16be seq) ++ body) 2 = body.length := by
    show body.length % 1024 / 256 * 256 + body.length % 1024 % 256 = body.length
    omega
  have hs10 : readU16 ((u16be msgId ++ u16be (body.length % 1024) ++ strToBcd (padTo12 t) ++
      u16be seq) ++ body) 10 = seq := by
    show seq / 256 * 256 + seq % 256 = seq
    omega
  have hterm : (((u16be msgId ++ u16be (body.length % 1024) ++ strToBcd (padTo12 t) ++
      u16be seq) ++ body).drop 4).take 6 = strToBcd (padTo12 t) := rfl
  have hdrop : ((u16be msgId ++ u16be (body.length % 1024) ++ strToBcd (padTo12 t) ++
      u16be seq) ++ body).drop 12 = body := rfl
  rw [hm0, hp2, hs10, hterm]
  have hmod : body.length % 1024 = body.length := Nat.mod_eq_of_lt (by omega)
  have hsub : (body.length / 8192 % 2 == 1) = false := by
    have h0 : body.length / 8192 = 0 := Nat.div_eq_of_lt (by omega)
    rw [h0]
    rfl
  rw [hsub]
  simp only [Bool.false_eq_true, if_false]
  rw [hmod] at hdrop
  rw [hmod, hdrop, List.take_length]
/-- C10: Round trip of the response builder through the frame parser: for
every 16-bit message id, every terminal string of up to 12 decimal digits,
every sequence number in 0..65535, and every body of at most 1023 bytes,
parsing the frame produced by the builder succeeds (no exception), reports
the checksum as valid (`ok = true`), and returns the same message id, the
same sequence, subpackage flag false, a body byte-for-byte equal to the
input body, and the terminal string equal to the input with leading zeros
stripped. -/
theorem build_parse_roundtrip (msgId seq : Nat) (t body : List Nat)
    (hm : msgId < 65536) (hs : seq < 65536) (ht : t.length ≤ 12)
    (htd : ∀ d ∈ t, d < 10) (hb : body.length ≤ 1023) (hbb : ∀ x ∈ body, x < 256) :
    ∃ p, parseJT808Frame (buildFrame msgId t seq body) = .ok p ∧
      p.ok = true ∧ p.msgId = msgId ∧ p.seq = seq ∧ p.subpack = false ∧
      p.bodyBytes = body ∧ p.terminal = t.dropWhile (· == 0) := by
  refine ⟨_, parse_buildFrame msgId seq t body hm hs hb, rfl, rfl, rfl, rfl, rfl, ?_⟩
  exact bcd_round_trip t ht htd

/-- C10 witness: the round trip applied at message id 2, terminal `"123"`,
sequence 7, body `[0xab, 0xcd]`. -/
theorem build_parse_roundtrip_witness :
    ∃ p, parseJT808Frame (buildFrame 2 [1, 2, 3] 7 [171, 205]) = .ok p ∧
      p.ok = true ∧ p.msgId = 2 ∧ p.seq = 7 ∧ p.subpack = false ∧
      p.bodyBytes = [171, 205] ∧ p.terminal = List.dropWhile (· == 0) [1, 2, 3] :=
  build_parse_roundtrip 2 7 [1, 2, 3] [171, 205] (by decide) (by decide) (by decide)
    (by decide) (by decide) (by decide)

/-! ## Response builders and dispatch (`build8001`, `build8100`,
`sendAckIfNeeded`) -/

/-- Body of `build8001` (`gps-tcp2.js` lines 149–155): original sequence (2),
original message id (2), result (1). -/
def build8001Body (origSeq origMsgId result : Nat) : List Nat :=
  u16be origSeq ++ u16be origMsgId ++ [result]

/-- Body of `build8100` (`gps-tcp2.js` lines 157–164): original sequence (2),
result (1), then the UTF-8 bytes of the auth token. -/
def build8100Body (origSeq result : Nat) (auth : List Nat) : List Nat :=
  u16be origSeq ++ [result] ++ auth

/-- `build8001`: the frame plus the updated module-level sequence counter. -/
def build8001 (terminal : List Nat) (origSeq origMsgId result seqCounter : Nat) :
    List Nat × Nat :=
  ((buildFrame 0x8001 terminal (nextSeq seqCounter).1
      (build8001Body origSeq origMsgId result)), (nextSeq seqCounter).2)

/-- `build8100`: the frame plus the updated module-level sequence counter. -/
def build8100 (terminal : List Nat) (origSeq result : Nat) (auth : List Nat)
    (seqCounter : Nat) : List Nat × Nat :=
  ((buildFrame 0x8100 terminal (nextSeq seqCounter).1
      (build8100Body origSeq result auth)), (nextSeq seqCounter).2)

/-- The UTF-8 bytes of the token `"OK"` passed to `build8100` by the
dispatcher. -/
def okToken : List Nat := [0x4f, 0x4b]

/-- `sendAckIfNeeded` (`gps-tcp2.js` lines 132–144): heartbeat (0x0002) and
location (0x0200) get a 0x8001 platform general response; register (0x0100)
and auth (0x0102) get a 0x8100 registration response with token `"OK"`;
anything else gets nothing.  Returns the frame written to the socket (if
any) and the updated sequence counter. -/
def sendAckIfNeeded (p : Parsed) (seqCounter : Nat) : Option (List Nat) × Nat :=
  if p.msgId = 0x0002 ∨ p.msgId = 0x0200 then
    ((build8001 p.terminal p.seq p.msgId 0x00 seqCounter).1,
     (build8001 p.terminal p.seq p.msgId 0x00 seqCounter).2)
  else if p.msgId = 0x0100 ∨ p.msgId = 0x0102 then
    ((build8100 p.terminal p.seq 0x00 okToken seqCounter).1,
     (build8100 p.terminal p.seq 0x00 okToken seqCounter).2)
  else (none, seqCounter)

/-- C2: for every validly parsed inbound frame, the dispatcher sends exactly
the response the table mandates: message id 0x0100 or 0x0102 gets a 0x8100
frame whose body is the original 16-bit sequence, then result byte 0, then
the UTF-8 token `"OK"`; message id 0x0002 or 0x0200 gets a 0x8001 frame
whose body is the original 16-bit sequence, then the original 16-bit message
id, then result byte 0; any other message id gets no response. -/
theorem sendAck_dispatch_table (p : Parsed) (s : Nat) :
    ((p.msgId = 0x0100 ∨ p.msgId = 0x0102) →
      (sendAckIfNeeded p s).1 =
        some (buildFrame 0x8100 p.terminal (nextSeq s).1
          ([p.seq / 256, p.seq % 256] ++ [0] ++ [0x4f, 0x4b]))) ∧
    ((p.msgId = 0x0002 ∨ p.msgId = 0x0200) →
      (sendAckIfNeeded p s).1 =
        some (buildFrame 0x8001 p.terminal (nextSeq s).1
          ([p.seq / 256, p.seq % 256] ++ [p.msgId / 256, p.msgId % 256] ++ [0]))) ∧
    (p.msgId ≠ 0x0002 ∧ p.msgId ≠ 0x0200 ∧ p.msgId ≠ 0x0100 ∧ p.msgId ≠ 0x0102 →
      (sendAckIfNeeded p s).1 = none) := by
  refine ⟨fun h => ?_, fun h => ?_, fun h => ?_⟩
  · have h2 : ¬(p.msgId = 0x0002 ∨ p.msgId = 0x0200) := by
      rcases h with h | h <;> rw [h] <;> decide
    unfold sendAckIfNeeded
    rw [if_neg h2, if_pos h]
    rfl
  · unfold sendAckIfNeeded
    rw [if_pos h]
    rfl
  · unfold sendAckIfNeeded
    rw [if_neg (by tauto), if_neg (by tauto)]

/-- C2 witness: the three arms of the dispatch table exercised at concrete
parsed frames (register 0x0100, heartbeat 0x0002, and unhandled 0x0300). -/
theorem sendAck_dispatch_table_witness :
    ((sendAckIfNeeded
        { ok := true, msgId := 0x0100, props := 0, bodyLen := 0, subpack := false,
          terminal := [1, 2, 3], seq := 7, pkg := none, bodyBytes := [],
          decoded := none } 5).1 =
      some (buildFrame 0x8100 [1, 2, 3] (nextSeq 5).1
        ([7 / 256, 7 % 256] ++ [0] ++ [0x4f, 0x4b]))) ∧
    ((sendAckIfNeeded
        { ok := true, msgId := 0x0002, props := 0, bodyLen := 0, subpack := false,
          terminal := [1, 2, 3], seq := 9, pkg := none, bodyBytes := [],
          decoded := none } 5).1 =
      some (buildFrame 0x8001 [1, 2, 3] (nextSeq 5).1
        ([9 / 256, 9 % 256] ++ [0x0002 / 256, 0x0002 % 256] ++ [0]))) ∧
    ((sendAckIfNeeded
        { ok := true, msgId := 0x0300, props := 0, bodyLen := 0, subpack := false,
          terminal := [1, 2, 3], seq := 4, pkg := none, bodyBytes := [],
          decoded := none } 5).1 = none) :=
  ⟨(sendAck_dispatch_table _ 5).1 (Or.inl rfl),
   (sendAck_dispatch_table _ 5).2.1 (Or.inl rfl),
   (sendAck_dispatch_table _ 5).2.2 (by refine ⟨by decide, by decide, by decide, by decide⟩)⟩

/-! ## C1: the per-frame engine step -/

/-- The per-frame step of the connection data handler (`gps-tcp2.js` lines
30–37): `try { p = parse(frame); print(p); sendAckIfNeeded(socket, p) }
catch (e) { log parse error }`.  Returns the emitted event (the parse
outcome), the frame written to the socket if any, and the updated sequence
counter; on a parse error nothing is written and the loop continues with the
next frame (the connection stays open). -/
def handleFrame (seqCounter : Nat) (frame : List Nat) :
    Except ParseErr Parsed × Option (List Nat) × Nat :=
  match parseJT808Frame frame with
  | .error e => (.error e, none, seqCounter)
  | .ok p => (.ok p, (sendAckIfNeeded p seqCounter).1, (sendAckIfNeeded p seqCounter).2)

/-- A heartbeat frame (msg id 0x0002, terminal BCD `01 23 45 67 89 01`,
seq 1, empty body) whose trailing checksum byte `0x00` is wrong (the XOR of
the header is `0x8b`). -/
def c1BadFrame : List Nat :=
  [0x7e, 0x00, 0x02, 0x00, 0x00, 0x01, 0x23, 0x45, 0x67, 0x89, 0x01,
   0x00, 0x01, 0x00, 0x7e]

/-- What `parseJT808Frame` returns on `c1BadFrame`: parsed fields with the
checksum flag `ok = false`. -/
def c1Parsed : Parsed :=
  { ok := false, msgId := 2, props := 0, bodyLen := 0, subpack := false,
    terminal := [1, 2, 3, 4, 5, 6, 7, 8, 9, 0, 1], seq := 1, pkg := none,
    bodyBytes := [], decoded := none }

/-- C1 counterexample: the heartbeat frame with a corrupted checksum byte is
not rejected — `parseJT808Frame` succeeds with the checksum flag `false`
(no parse-error event is emitted), and the engine still writes a response
frame to the socket, contradicting the claim that a checksum mismatch emits
a parse error and sends no response. -/
theorem bad_checksum_still_acked :
    (parseJT808Frame c1BadFrame).toOption.map Parsed.ok = some false ∧
    ((handleFrame 1 c1BadFrame).2.1).isSome = true := by
  exact ⟨rfl, rfl⟩

/-- C1 amended: a frame whose computed XOR checksum differs from the trailing
byte (but is otherwise well-formed) is parsed successfully with its checksum
flag reported `false` and no parse-error is emitted; the engine's response
decision ignores the checksum flag entirely — a response is withheld exactly
when the message id is outside the dispatch table (0x0002, 0x0200, 0x0100,
0x0102) — so the mandated response is still sent for a corrupt frame.  Parse
errors (which do suppress the response) arise only from bad delimiters or
interiors shorter than 13 bytes. -/
theorem ack_ignores_checksum (s : Nat) (frame : List Nat) (p : Parsed)
    (h : parseJT808Frame frame = .ok p) :
    (handleFrame s frame).1 = .ok p ∧
    ((handleFrame s frame).2.1 = none ↔
      ¬(p.msgId = 0x0002 ∨ p.msgId = 0x0200 ∨ p.msgId = 0x0100 ∨ p.msgId = 0x0102)) := by
  unfold handleFrame
  rw [h]
  dsimp only
  refine ⟨rfl, ?_⟩
  unfold sendAckIfNeeded
  by_cases h1 : p.msgId = 0x0002 ∨ p.msgId = 0x0200
  · rw [if_pos h1]
    simp only [reduceCtorEq, false_iff]
    tauto
  · rw [if_neg h1]
    by_cases h2 : p.msgId = 0x0100 ∨ p.msgId = 0x0102
    · rw [if_pos h2]
      simp only [reduceCtorEq, false_iff]
      tauto
    · rw [if_neg h2]
      simp only [true_iff]
      tauto

/-- C1 amended-theorem witness at the corrupted heartbeat frame. -/
theorem ack_ignores_checksum_witness :
    (handleFrame 3 c1BadFrame).1 = .ok c1Parsed ∧
    ((handleFrame 3 c1BadFrame).2.1 = none ↔
      ¬(c1Parsed.msgId = 0x0002 ∨ c1Parsed.msgId = 0x0200 ∨ c1Parsed.msgId = 0x0100 ∨
        c1Parsed.msgId = 0x0102)) :=
  ack_ignores_checksum 3 c1BadFrame c1Parsed (by rfl)

end GpsTcp2

namespace Micodus

open GpsTcp2 in
/-- `bcdTime` from the Micodus variant (`src/unnamed/part_000` lines 17–22).
Despite the name it reads the six timestamp bytes as plain binary values,
not BCD: `yy = buf[0]`, year `2000 + yy`, etc. -/
def bcdTime (b : List Nat) : Option DateTime6 :=
  if b.length < 6 then none
  else
    some
      { year := 2000 + b.getD 0 0, month := b.getD 1 0, day := b.getD 2 0,
        hour := b.getD 3 0, minute := b.getD 4 0, second := b.getD 5 0 }

/-- The `loc` object of the Micodus `parseFrame` (`src/unnamed/part_000`
lines 79–87). -/
structure MicoLoc where
  time_utc : Option GpsTcp2.DateTime6
  latitude : ℚ
  longitude : ℚ
  speed_kmh : ℚ
  course_deg : Nat
  altitude_m : Nat
  alarm : Nat
  status : Nat
deriving DecidableEq

/-- One entry of the `extras` object (`src/unnamed/part_000` lines 99–119);
the hex rendering of opaque values is modelled by keeping the raw bytes
(the rendering is an injective formatting of exactly these bytes). -/
inductive Extra where
  | mileage_km (v : ℚ)
  | gsm_signal (v : Nat)
  | gps_signal (v : Nat)
  | hdop (v : Nat)
  | sats (v : Nat)
  | acc (v : String)
  | io_57 (v : List Nat)
  | external_voltage_v (v : ℚ)
  | tlv (tag : Nat) (v : List Nat)
deriving DecidableEq

open GpsTcp2 in
/-- The tag dictionary of the TLV loop body (`src/unnamed/part_000` lines
100–119).  `val` always has exactly the declared length when this runs, so
the source's `len === k` checks are `val.length = k`; `(val[0] & 0x01)` is
`val.getD 0 0 % 2`. -/
def decodeTlv (id : Nat) (val : List Nat) : Extra :=
  if id = 0x01 ∧ val.length = 4 then .mileage_km ((readU32 val 0 : ℚ) / 10)
  else if id = 0x30 ∧ val.length = 1 then .gsm_signal (val.getD 0 0)
  else if id = 0x31 ∧ val.length = 1 then .gps_signal (val.getD 0 0)
  else if id = 0x32 ∧ val.length = 1 then .hdop (val.getD 0 0)
  else if id = 0x33 ∧ val.length = 1 then .sats (val.getD 0 0)
  else if id = 0x34 ∧ val.length = 1 then
    .acc (if val.getD 0 0 % 2 = 1 then "ON" else "OFF")
  else if id = 0x57 ∧ val.length = 8 then .io_57 val
  else if id = 0x82 ∧ val.length = 2 then .external_voltage_v ((readU16 val 0 : ℚ) / 10)
  else .tlv id val

/-- The TLV `while` loop (`src/unnamed/part_000` lines 91–120), recursing on
the remaining bytes after the 28-byte prefix: the loop runs while at least
two bytes remain (`i + 2 <= body.length`), reads tag and declared length,
and breaks — keeping the entries collected so far — when the declared
length overruns the remaining body (`i + len > body.length`). -/
def parseTlvs : List Nat → List Extra
  | [] => []
  | [_] => []
  | id :: len :: rest =>
    if len ≤ rest.length then decodeTlv id (rest.take len) :: parseTlvs (rest.drop len)
    else []
termination_by l => l.length
decreasing_by simp [List.length_drop]; omega

open GpsTcp2 in
/-- The 0x0200 branch of the Micodus `parseFrame` (`src/unnamed/part_000`
lines 68–124): when the body has at least 28 bytes, the fixed prefix is
decoded into `loc` and the TLV loop produces `extras`; `out.loc` is set
after the loop regardless of how the loop ended. -/
def parse0200 (body : List Nat) : Option (MicoLoc × List Extra) :=
  if body.length < 28 then none
  else
    some
      ({ time_utc := bcdTime ((body.drop 22).take 6),
         latitude := (readU32 body 8 : ℚ) / 1000000,
         longitude := (readU32 body 12 : ℚ) / 1000000,
         speed_kmh := (readU16 body 18 : ℚ) / 10,
         course_deg := readU16 body 20,
         altitude_m := readU16 body 16,
         alarm := readU32 body 0, status := readU32 body 4 },
       parseTlvs (body.drop 28))

theorem parseTlvs_overrun (id len : Nat) (rest : List Nat) (h : rest.length < len) :
    parseTlvs (id :: len :: rest) = [] := by
  simp only [parseTlvs]
  rw [if_neg (by omega)]

/-- C8: For every 0x0200 body, after the 28-byte fixed prefix the TLV list
is parsed as (1-byte tag, 1-byte length, length-byte value) entries; a TLV
whose declared length exceeds the remaining body stops TLV parsing without
failing the frame, and the already-parsed fixed prefix plus earlier TLVs are
still emitted; recognised tags decode per the table (0x01 length 4 as
odometer value/10 km, 0x33 length 1 as satellite count, 0x34 length 1 with
bit 0 mapped to "ON"/"OFF", 0x82 length 2 as voltage value/10) and any
unrecognised tag is preserved as a tag-to-hex map entry (modelled as the tag
with its raw value bytes). -/
theorem tlv_parsing_spec :
    (∀ body : List Nat, 28 ≤ body.length →
      ∃ loc, parse0200 body = some (loc, parseTlvs (body.drop 28))) ∧
    (∀ id len : Nat, ∀ rest : List Nat, rest.length < len →
      parseTlvs (id :: len :: rest) = []) ∧
    (∀ id : Nat, ∀ v : List Nat, ∀ id2 len2 : Nat, ∀ rest : List Nat,
      rest.length < len2 →
      parseTlvs (id :: v.length :: (v ++ id2 :: len2 :: rest)) = [decodeTlv id v]) ∧
    (∀ b0 b1 b2 b3 : Nat, decodeTlv 0x01 [b0, b1, b2, b3] =
      .mileage_km (((b0 * 16777216 + b1 * 65536 + b2 * 256 + b3 : Nat) : ℚ) / 10)) ∧
    (∀ n : Nat, decodeTlv 0x33 [n] = .sats n) ∧
    (∀ n : Nat, decodeTlv 0x34 [n] = .acc (if n % 2 = 1 then "ON" else "OFF")) ∧
    (∀ b0 b1 : Nat, decodeTlv 0x82 [b0, b1] =
      .external_voltage_v (((b0 * 256 + b1 : Nat) : ℚ) / 10)) ∧
    (∀ tag : Nat, ∀ v : List Nat,
      tag ∉ ([0x01, 0x30, 0x31, 0x32, 0x33, 0x34, 0x57, 0x82] : List Nat) →
      decodeTlv tag v = .tlv tag v) := by
  refine ⟨fun body hb => ?_, parseTlvs_overrun, fun id v id2 len2 rest h => ?_,
    fun b0 b1 b2 b3 => ?_, fun n => ?_, fun n => ?_, fun b0 b1 => ?_,
    fun tag v h => ?_⟩
  · unfold parse0200
    rw [if_neg (by omega)]
    exact ⟨_, rfl⟩
  · simp only [parseTlvs]
    rw [if_pos (by simp), List.take_left v, List.drop_left v,
      parseTlvs_overrun id2 len2 rest h]
  · unfold decodeTlv
    rw [if_pos (by simp)]
    rfl
  · simp [decodeTlv]
  · simp [decodeTlv]
  · unfold decodeTlv
    rw [if_neg (by simp), if_neg (by simp), if_neg (by simp), if_neg (by simp),
        if_neg (by simp), if_neg (by simp), if_neg (by simp), if_pos (by simp)]
    rfl
  · simp only [List.mem_cons, List.not_mem_nil, or_false] at h
    push_neg at h
    obtain ⟨h1, h2, h3, h4, h5, h6, h7, h8⟩ := h
    simp [decodeTlv, h1, h2, h3, h4, h5, h6, h7, h8]

/-- C8 witness: each hypothesised part applied at concrete inputs — a
28-zero-byte prefix followed by the spec's example TLVs
`01 04 00 00 00 64 | 33 01 08 | 34 01 01`; an overrunning TLV `(1, 5)` with
only two value bytes; a good satellites TLV followed by an overrunning one;
and the unrecognised tag `0x99`. -/
theorem tlv_parsing_spec_witness :
    (∃ loc, parse0200 (List.replicate 28 0 ++
        [0x01, 0x04, 0x00, 0x00, 0x00, 0x64, 0x33, 0x01, 0x08, 0x34, 0x01, 0x01]) =
      some (loc, parseTlvs ((List.replicate 28 0 ++
        [0x01, 0x04, 0x00, 0x00, 0x00, 0x64, 0x33, 0x01, 0x08, 0x34, 0x01, 0x01]).drop 28))) ∧
    parseTlvs [1, 5, 0, 0] = [] ∧
    parseTlvs (0x33 :: ([8] : List Nat).length :: ([8] ++ [1, 4, 0])) =
      [decodeTlv 0x33 [8]] ∧
    decodeTlv 0x01 [0, 0, 0, 100] =
      .mileage_km (((0 * 16777216 + 0 * 65536 + 0 * 256 + 100 : Nat) : ℚ) / 10) ∧
    decodeTlv 0x33 [8] = .sats 8 ∧
    decodeTlv 0x34 [1] = .acc (if 1 % 2 = 1 then "ON" else "OFF") ∧
    decodeTlv 0x82 [0, 124] = .external_voltage_v (((0 * 256 + 124 : Nat) : ℚ) / 10) ∧
    decodeTlv 0x99 [1, 2] = .tlv 0x99 [1, 2] :=
  ⟨tlv_parsing_spec.1 _ (by decide),
   tlv_parsing_spec.2.1 1 5 [0, 0] (by decide),
   tlv_parsing_spec.2.2.1 0x33 [8] 1 4 [0] (by decide),
   tlv_parsing_spec.2.2.2.1 0 0 0 100,
   tlv_parsing_spec.2.2.2.2.1 8,
   tlv_parsing_spec.2.2.2.2.2.1 1,
   tlv_parsing_spec.2.2.2.2.2.2.1 0 124,
   tlv_parsing_spec.2.2.2.2.2.2.2 0x99 [1, 2] (by decide)⟩

end Micodus
